import Mathlib

/-!
Shallow embedding of the classification / extraction / reconciliation core of
`src/backend/main.py` (Swiss municipal tax-statement reconciliation), together
with theorems settling the frozen claims about the natural-language
specification.  Monetary amounts are modelled as rationals; Python `None` as
`Option.none`; Python dicts with insertion order as association lists.
-/

namespace Revipro

/-- The apostrophe character (thousands separator in Swiss number formats). -/
def apos : Char := Char.ofNat 39

/-- Python `str.strip()` whitespace set (ASCII part). -/
def isPySpace (c : Char) : Bool :=
  c = ' ' || c = Char.ofNat 9 || c = Char.ofNat 10 || c = Char.ofNat 13 ||
  c = Char.ofNat 11 || c = Char.ofNat 12

/-- ASCII lower-casing of one character, as Python `str.lower()` does on ASCII. -/
def lowerChar (c : Char) : Char :=
  if 'A' ≤ c && c ≤ 'Z' then Char.ofNat (c.toNat + 32) else c

/-- Python `str.lower()` (ASCII fragment; the inputs of interest are ASCII). -/
def lowerS (s : String) : String := String.mk (s.toList.map lowerChar)

/-- `needle` occurs as a contiguous sublist of `hay` (Python `in` on strings). -/
def containsSeg (needle : List Char) : List Char → Bool
  | [] => needle.isEmpty
  | c :: cs => needle.isPrefixOf (c :: cs) || containsSeg needle cs

/-- Python `needle in hay` for strings. -/
def containsS (needle hay : String) : Bool := containsSeg needle.toList hay.toList

/-- Python `hay.startswith needle`. -/
def startsWithS (needle hay : String) : Bool := needle.toList.isPrefixOf hay.toList

/-- Python `hay.endswith needle`. -/
def endsWithS (needle hay : String) : Bool :=
  needle.toList.reverse.isPrefixOf hay.toList.reverse

/-- Python `str.strip()`: drop leading and trailing whitespace. -/
def pyStrip (s : String) : String :=
  String.mk (((s.toList.dropWhile isPySpace).reverse.dropWhile isPySpace).reverse)

/-- Character class of `re.sub(r'[CHF\s\(\)\-]', '', text)`. -/
def isSignOrCurrencyChar (c : Char) : Bool :=
  c = 'C' || c = 'H' || c = 'F' || isPySpace c || c = '(' || c = ')' || c = '-'

/-- `re.sub(r'[CHF\s\(\)\-]', '', text)`: delete every such character. -/
def stripSignCurrency (s : String) : String :=
  String.mk (s.toList.filter (fun c => !isSignOrCurrencyChar c))

/-- `re.match(r'^\d{4}\.\d{2}$', text)`: exactly four digits, a dot, two digits. -/
def isRowRef (s : String) : Bool :=
  match s.toList with
  | [a, b, c, d, e, f, g] =>
      a.isDigit && b.isDigit && c.isDigit && d.isDigit && e = '.' && f.isDigit && g.isDigit
  | _ => false

/-- Character class `[\d',.]` used by the numeric-run tokenizers. -/
def isRunChar (c : Char) : Bool :=
  c.isDigit || c = apos || c = ',' || c = '.'

/-- Accumulator pass of `re.findall(r"[\d',.]+", s)`: maximal runs of run-chars.
The second argument is the current run, reversed. -/
def runsAux : List Char → List Char → List String
  | [], acc => if acc.isEmpty then [] else [String.mk acc.reverse]
  | c :: cs, acc =>
      if isRunChar c then runsAux cs (c :: acc)
      else if acc.isEmpty then runsAux cs []
      else String.mk acc.reverse :: runsAux cs []

/-- `re.findall(r"[\d',.]+", s)`: every maximal run of digits / apostrophes /
commas / dots, in order. -/
def findRuns (s : String) : List String := runsAux s.toList []

/-- `re.search(r"([\d',.]+)", s)`: the leftmost maximal numeric run, if any. -/
def firstRun (s : String) : Option String := (findRuns s).head?

/-- The cleaning step of `extract_monetary_value`: strip apostrophes; a comma
without a dot becomes the decimal separator; commas alongside a dot are
dropped as thousands separators. -/
def cleanNumber (s : String) : String :=
  let l := (s.toList.filter (fun c => c ≠ apos))
  let hasComma := l.contains ','
  let hasDot := l.contains '.'
  if hasComma && !hasDot then
    String.mk (l.map (fun c => if c = ',' then '.' else c))
  else if hasComma && hasDot then
    String.mk (l.filter (fun c => c ≠ ','))
  else
    String.mk l

/-- Digit list to natural number. -/
def digitsToNat (l : List Char) : Nat :=
  l.foldl (fun a c => a * 10 + (c.toNat - 48)) 0

/-- Python `float(s)` restricted to the strings reachable after cleaning
(digits and dots only): succeeds iff the string has at least one digit, at
most one dot, and no other characters; a failure models the `ValueError`
caught by the caller.  The value `intpart.fracpart` is built with `mkRat`
(numerator over a power of ten) so that it evaluates inside the kernel. -/
def parseFloat? (s : String) : Option ℚ :=
  let l := s.toList
  if l.all (fun c => c.isDigit || c = '.') && l.count '.' ≤ 1 && l.any Char.isDigit then
    let ip := l.takeWhile (fun c => c ≠ '.')
    let fp := (l.dropWhile (fun c => c ≠ '.')).drop 1
    some (mkRat (digitsToNat ip * 10 ^ fp.length + digitsToNat fp) (10 ^ fp.length))
  else
    none

/-- `extract_monetary_value` (main.py:800): normalize one raw token to a signed
rational, or `none` ("not a number"). -/
def extract_monetary_value (text : String) : Option ℚ :=
  let t := pyStrip text
  if t.length < 2 then none
  else
    let neg := startsWithS "-" t || startsWithS "(" t || endsWithS "-" t || endsWithS ")" t
    let t2 := stripSignCurrency t
    if isRowRef t2 then none
    else if containsS "%" t2 then none
    else
      match firstRun t2 with
      | none => none
      | some run =>
          match parseFloat? (cleanNumber run) with
          | some v => some (if neg then -v else v)
          | none => none

/-- Digit or apostrophe: the repeated class of `-?[\d']+(?:\.\d{2})?`. -/
def isDA (c : Char) : Bool := c.isDigit || c = apos

/-- Accumulator pass of `re.findall(r"-?[\d']+(?:\.\d{2})?", s)` (the Endsaldo
tokenizer): an optional leading minus, a run of digits/apostrophes, and an
optional dot followed by exactly two digits.  The second argument is the
current run, reversed. -/
def tok2Aux : List Char → List Char → List String
  | [], acc => if acc.isEmpty then [] else [String.mk acc.reverse]
  | '.' :: d1 :: d2 :: rest, acc =>
      if !acc.isEmpty && d1.isDigit && d2.isDigit then
        String.mk (acc.reverse ++ ['.', d1, d2]) :: tok2Aux rest []
      else if !acc.isEmpty then
        String.mk acc.reverse :: tok2Aux (d1 :: d2 :: rest) []
      else tok2Aux (d1 :: d2 :: rest) []
  | '.' :: rest, acc =>
      if acc.isEmpty then tok2Aux rest []
      else String.mk acc.reverse :: tok2Aux rest []
  | '-' :: c :: cs, acc =>
      if isDA c then
        if acc.isEmpty then tok2Aux cs [c, '-']
        else String.mk acc.reverse :: tok2Aux cs [c, '-']
      else if acc.isEmpty then tok2Aux (c :: cs) []
      else String.mk acc.reverse :: tok2Aux (c :: cs) []
  | ['-'], acc => if acc.isEmpty then [] else [String.mk acc.reverse]
  | c :: cs, acc =>
      if isDA c then tok2Aux cs (c :: acc)
      else if acc.isEmpty then tok2Aux cs []
      else String.mk acc.reverse :: tok2Aux cs []

/-- `re.findall(r"-?[\d']+(?:\.\d{2})?", s)`. -/
def findNumTokens (s : String) : List String := tok2Aux s.toList []

/-- Regex word character `\w` (ASCII). -/
def isWordChar (c : Char) : Bool := c.isAlphanum || c = '_'

/-- One step of a word-bounded search for the literal `pat`: the previous
character (if any) must not be a word character, `pat` must be a prefix here,
and the following character (if any) must not be a word character. -/
def wbScanAux (pat : List Char) : Option Char → List Char → Bool
  | _, [] => false
  | prev, c :: cs =>
      (decide (prev = none) || (prev.map (fun p => !isWordChar p)).getD false) &&
        pat.isPrefixOf (c :: cs) &&
        ((match (c :: cs).drop pat.length with
          | [] => true
          | d :: _ => !isWordChar d) : Bool)
      || wbScanAux pat (some c) cs

/-- `re.search(r'\b…\b', s)` for a literal whose first and last characters are
word characters. -/
def hasWordBounded (pat : String) (s : String) : Bool :=
  wbScanAux pat.toList none s.toList

/-- `re.search(r'\b(1012\.00|2002\.00)\b', text)` as a Boolean. -/
def hasAccountToken (text : String) : Bool :=
  hasWordBounded "1012.00" text || hasWordBounded "2002.00" text

/-- Consume exactly four digits, returning them and the remainder. -/
def digits4? : List Char → Option (List Char × List Char)
  | a :: b :: c :: d :: rest =>
      if a.isDigit && b.isDigit && c.isDigit && d.isDigit then some ([a, b, c, d], rest)
      else none
  | _ => none

/-- Match `c1 c2 _\d{4}_\d{4}` at the head of the list (for `sr_…`/`ja_…`). -/
def srjaAt (c1 c2 : Char) (l : List Char) : Bool :=
  match l with
  | x :: y :: '_' :: rest =>
      x = c1 && y = c2 &&
      (match digits4? rest with
       | some (_, '_' :: r2) => (digits4? r2).isSome
       | _ => false)
  | _ => false

/-- Search a Boolean head-matcher at every position (re.search existence). -/
def scanAny (p : List Char → Bool) : List Char → Bool
  | [] => false
  | c :: t => p (c :: t) || scanAny p t

/-- `re.search(r'sr_\d{4}_\d{4}', s)`. -/
def hasSRFilePat (s : String) : Bool := scanAny (srjaAt 's' 'r') s.toList

/-- `re.search(r'ja_\d{4}_\d{4}', s)`. -/
def hasJAFilePat (s : String) : Bool := scanAny (srjaAt 'j' 'a') s.toList

/-- `re.search(r'^\d+-fibu', s)`: one or more digits then `-fibu` at the start. -/
def startsDigitsDashFibu (s : String) : Bool :=
  let l := s.toList
  let ds := l.takeWhile Char.isDigit
  !ds.isEmpty && ['-', 'f', 'i', 'b', 'u'].isPrefixOf (l.drop ds.length)

/-- Match `(\d{4})_(\d{4})` at the head, returning both year groups. -/
def yearPairAt (l : List Char) : Option (String × String) :=
  match digits4? l with
  | some (g1, '_' :: r2) =>
      match digits4? r2 with
      | some (g2, _) => some (String.mk g1, String.mk g2)
      | none => none
  | _ => none

/-- `re.search(r'(\d{4})_(\d{4})', s)`: leftmost match, both groups. -/
def firstYearPair : List Char → Option (String × String)
  | [] => none
  | c :: t =>
      match yearPairAt (c :: t) with
      | some g => some g
      | none => firstYearPair t

/-- `detect_tax_document_type` (main.py:700): the ordered classification
cascade; first matching rule wins. -/
def detect_tax_document_type (text filename : String) : String :=
  let tl := lowerS text
  let fl := lowerS filename
  if containsS "quellensteuer" tl || containsS "qvo" fl then "quellensteuer"
  else if containsS "fibu" fl && containsS "konto" fl then "fibu"
  else if startsDigitsDashFibu fl then "fibu"
  else if containsS "kontoauszug" tl then "fibu"
  else if (containsS "konti" fl || containsS "restanzen" fl) && hasAccountToken text then
    "fibu_combined"
  else if containsS "fibukonto" tl || containsS "fibukontoblatt" tl then "fibu_combined"
  else if containsS "forderungen allgemeine gemeindesteuern" tl then "fibu_combined"
  else if containsS "verpflichtungen aus allgemeinen gemeindesteuern" tl then "fibu_combined"
  else if containsS "nachsteuer" fl && !containsS "fibu" fl then "NAST"
  else if hasSRFilePat fl then "SR"
  else if hasJAFilePat fl then "JA"
  else if containsS "abrechnung über den ertrag von nachsteuern" tl then "NAST"
  else if containsS "nachsteuern" tl && containsS "total restanzen nachsteuern" tl then "NAST"
  else if containsS "jahresabschluss" tl && !containsS "fibu" fl then "JA"
  else if containsS "steuerrestanz" tl then "SR"
  else if containsS "erfolgsrechnung" tl && containsS "9100" text then "erfolgsrechnung"
  else if (containsS "bilanz" tl && !containsS "fibu" fl) &&
          (containsS "bestand per" tl || containsS "31.12." text) then "bilanz"
  else if containsS "gemowing" tl || containsS "steuerabschluss" tl then
    match firstYearPair filename.toList with
    | some (y1, y2) => if y1 = y2 then "JA" else "SR"
    | none => "JA"
  else if containsS "gemeindesteuern" tl && containsS "total restanzen" tl then
    match firstYearPair filename.toList with
    | some (y1, y2) => if y1 = y2 then "JA" else "SR"
    | none => "JA"
  else "unknown"

/-- Match `_(\d{4})_(\d{4})` at the head; group 2 (the tax year). -/
def fnYearAt (l : List Char) : Option String :=
  match l with
  | '_' :: rest =>
      match digits4? rest with
      | some (_, '_' :: r2) =>
          match digits4? r2 with
          | some (g2, _) => some (String.mk g2)
          | none => none
      | _ => none
  | _ => none

/-- `re.search(r'_(\d{4})_(\d{4})', filename)`: leftmost match, group 2. -/
def firstFnYear : List Char → Option String
  | [] => none
  | c :: t =>
      match fnYearAt (c :: t) with
      | some y => some y
      | none => firstFnYear t

/-- Keyword alternatives of the first year pattern. -/
def yearKwList : List String :=
  ["rechnungsjahr", "rechnung", "jahr", "year", "periode", "period", "steuerperiode"]

/-- Try one keyword alternative of `(?:…)[:\s]*(\d{4})` at the head. -/
def p1TryKw (kw : List Char) (l : List Char) : Option String :=
  if kw.isPrefixOf l then
    let rest := (l.drop kw.length).dropWhile (fun c => c = ':' || isPySpace c)
    match digits4? rest with
    | some (g, _) => some (String.mk g)
    | none => none
  else none

/-- Match the first year pattern at the head (alternatives tried in order). -/
def p1At (l : List Char) : Option String :=
  yearKwList.foldl (fun a kw => a.orElse (fun _ => p1TryKw kw.toList l)) none

/-- Consume `\d{1,2}\.` greedily, returning the remainder. -/
def d12dot : List Char → Option (List Char)
  | a :: b :: rest =>
      if !a.isDigit then none
      else if b.isDigit then
        match rest with
        | '.' :: r => some r
        | _ => none
      else if b = '.' then some rest
      else none
  | _ => none

/-- Match `(?:per|vom|from)\s*\d{1,2}\.\d{1,2}\.(\d{4})` at the head. -/
def p2At (l : List Char) : Option String :=
  (["per", "vom", "from"] : List String).foldl
    (fun a kw =>
      a.orElse (fun _ =>
        if kw.toList.isPrefixOf l then
          let rest := (l.drop kw.length).dropWhile isPySpace
          match d12dot rest with
          | some r1 =>
              match d12dot r1 with
              | some r2 =>
                  match digits4? r2 with
                  | some (g, _) => some (String.mk g)
                  | none => none
              | none => none
          | none => none
        else none))
    none

/-- Match `31\.12\.(\d{4})` at the head. -/
def p3At (l : List Char) : Option String :=
  match l with
  | '3' :: '1' :: '.' :: '1' :: '2' :: '.' :: rest =>
      match digits4? rest with
      | some (g, _) => some (String.mk g)
      | none => none
  | _ => none

/-- Scan an option-valued head-matcher left to right (re.search group). -/
def scanFirst (p : List Char → Option String) : List Char → Option String
  | [] => none
  | c :: t =>
      match p (c :: t) with
      | some g => some g
      | none => scanFirst p t

/-- `re.search(r'\b(20\d{2})\b', s)`: leftmost word-bounded year. -/
def p4Scan : Option Char → List Char → Option String
  | _, [] => none
  | prev, c :: cs =>
      let hit :=
        if (decide (prev = none) || (prev.map (fun p => !isWordChar p)).getD false) then
          match c :: cs with
          | '2' :: '0' :: a :: b :: rest =>
              if a.isDigit && b.isDigit &&
                 (match rest with
                  | [] => true
                  | d :: _ => !isWordChar d) then
                some (String.mk ['2', '0', a, b])
              else none
          | _ => none
        else none
      match hit with
      | some g => some g
      | none => p4Scan (some c) cs

/-- `extract_year_from_text` (main.py:779): the tax year from the filename
pattern, else the first of four text patterns, else `"2024"`. -/
def extract_year_from_text (text : String) (filename : String := "") : String :=
  match firstFnYear filename.toList with
  | some y => y
  | none =>
      let tl := (lowerS text).toList
      match scanFirst p1At tl with
      | some y => y
      | none =>
          match scanFirst p2At tl with
          | some y => y
          | none =>
              match scanFirst p3At tl with
              | some y => y
              | none =>
                  match p4Scan none tl with
                  | some y => y
                  | none => "2024"

/-! ### Table model and the tax-statement extractor -/

/-- A table cell: `None` or a string. -/
def Cell := Option String
deriving DecidableEq, Repr

/-- One table row. -/
def Row := List Cell
deriving DecidableEq, Repr

/-- One extracted table. -/
def Table := List Row
deriving DecidableEq, Repr

/-- Python `str(c) if c else ''`. -/
def cellStr (c : Cell) : String :=
  match c with
  | some s => s
  | none => ""

/-- Python truthiness of a cell (`if cell:`): present and nonempty. -/
def cellTruthy (c : Cell) : Bool :=
  match c with
  | some s => !s.toList.isEmpty
  | none => false

/-- Python `int(s)` on an already-stripped string: optional sign, digits. -/
def parseInt? (s : String) : Option Int :=
  match s.toList with
  | [] => none
  | '-' :: ds =>
      if !ds.isEmpty && ds.all Char.isDigit then some (-(digitsToNat ds : Int)) else none
  | '+' :: ds =>
      if !ds.isEmpty && ds.all Char.isDigit then some (digitsToNat ds : Int) else none
  | ds => if ds.all Char.isDigit then some (digitsToNat ds : Int) else none

/-- `' '.join(str(c) if c else '' for c in row).lower()`. -/
def joinRowLower (row : Row) : String :=
  lowerS (String.intercalate " " (row.map cellStr))

/-- `extract_value_from_row` (main.py:849). -/
def extract_value_from_row (row : Row) (column_index : Nat) : Option ℚ :=
  match row.get? column_index with
  | some c => if cellTruthy c then extract_monetary_value (cellStr c) else none
  | none => none

/-- The mutable dict of `parse_tax_statement_tables`. -/
structure TaxData where
  filename : String
  ty : String
  year : String
  restanzen_gemeinde : Option ℚ
  restanzenvortrag_gemeinde : Option ℚ
  is_negative : Bool
  raw_restanzen : Option ℚ
deriving DecidableEq, Repr

/-- Record a signed value as the primary fact: absolute amount plus sign flag. -/
def recordFact (d : TaxData) (v : ℚ) : TaxData :=
  { d with raw_restanzen := some v, restanzen_gemeinde := some |v|,
           is_negative := decide (v < 0) }

/-- The per-row branch dispatch of `parse_tax_statement_tables` (main.py:879). -/
def processTaxRow (doc_type : String) (col : Nat) (d : TaxData) (row : Row) : TaxData :=
  match row with
  | [] => d
  | c0 :: _ =>
      if !cellTruthy c0 then d
      else
        let first_cell := pyStrip (cellStr c0)
        let row_num := parseInt? first_cell
        let rt := joinRowLower row
        if row_num = some 51 ||
           (doc_type = "SR" && containsS "total restanzen" rt && !containsS "vortrag" rt) then
          match extract_value_from_row row col with
          | some v => recordFact d v
          | none => d
        else if row_num = some 45 || containsS "total restanzen" rt then
          if containsS "vortrag" rt then
            match extract_value_from_row row col with
            | some v => { d with restanzenvortrag_gemeinde := some v }
            | none => d
          else if doc_type = "JA" then
            match extract_value_from_row row col with
            | some v => recordFact d v
            | none => d
          else d
        else if row_num = some 44 ||
                (doc_type = "NAST" && containsS "total restanzen nachsteuern" rt) then
          match extract_value_from_row row col with
          | some v => recordFact d v
          | none => d
        else if row_num = some 38 || containsS "restanzenvortrag inkl. zinsen" rt then
          match extract_value_from_row row col with
          | some v =>
              let d1 := { d with restanzenvortrag_gemeinde := some v }
              if d.restanzen_gemeinde = none && doc_type = "NAST" then recordFact d1 v else d1
          | none => d
        else d

/-- Scan one row for a `politische gemeinde` header cell, returning its index. -/
def findGemeindeColRow : Nat → Row → Option Nat
  | _, [] => none
  | i, c :: cs =>
      if cellTruthy c && containsS "politische gemeinde" (lowerS (cellStr c)) then some i
      else findGemeindeColRow (i + 1) cs

/-- The header scan over the first five rows of a table (later rows win). -/
def headerScanTable (t : Table) (col : Nat) : Nat :=
  (t.take 5).foldl
    (fun c row =>
      match findGemeindeColRow 0 row with
      | some i => i
      | none => c)
    col

/-- `parse_tax_statement_tables` (main.py:858). -/
def parse_tax_statement_tables (tables : List Table) (doc_type filename : String) : TaxData :=
  let init : TaxData :=
    { filename := filename, ty := doc_type, year := "Unknown",
      restanzen_gemeinde := none, restanzenvortrag_gemeinde := none,
      is_negative := false, raw_restanzen := none }
  (tables.foldl
    (fun (p : Nat × TaxData) t =>
      let col := headerScanTable t p.1
      (col, t.foldl (processTaxRow doc_type col) p.2))
    (4, init)).2

/-- Split on a separator character, keeping empty segments (Python
`text.split('\n')` / `String.splitOn "\n"` for one-character separators). -/
def splitCharAux (c : Char) : List Char → List Char → List String
  | [], acc => [String.mk acc.reverse]
  | x :: xs, acc =>
      if x = c then String.mk acc.reverse :: splitCharAux c xs []
      else splitCharAux c xs (x :: acc)

/-- Python `text.split('\n')`. -/
def splitLines (s : String) : List String := splitCharAux (Char.ofNat 10) s.toList []

/-- `hay.find(needle)` (Python): index of the first occurrence, from `i`. -/
def strFindAux (needle : List Char) : Nat → List Char → Option Nat
  | i, [] => if needle.isEmpty then some i else none
  | i, c :: t => if needle.isPrefixOf (c :: t) then some i else strFindAux needle (i + 1) t

/-- Python `hay.find(needle)`: `-1` when absent. -/
def pyFind (hay needle : String) : Int :=
  match strFindAux needle.toList 0 hay.toList with
  | some i => (i : Int)
  | none => -1

/-- Python slice `s[a:b]` for natural bounds. -/
def sliceStr (s : String) (a b : Nat) : String :=
  String.mk ((s.toList.drop a).take (b - a))

/-- The raw-text fallback loop of `extract_tax_statement_data_v2` (main.py:940):
on a `total restanzen` line without `vortrag`, take the fifth numeric run,
detect negativity from a minus sign in the five preceding characters, and stop
at the first line whose run parses.  (The Python local `line_has_negative` is
computed but never used.) -/
def taxTextFallback (d : TaxData) : List String → TaxData
  | [] => d
  | line :: rest =>
      let ll := lowerS line
      if containsS "total restanzen" ll && !containsS "vortrag" ll then
        let values := findRuns line
        if 5 ≤ values.length then
          let raw := values.getD 4 ""
          let value_pos := pyFind line raw
          let is_neg :=
            if value_pos > 0 then
              containsS "-" (sliceStr line (value_pos.toNat - 5) value_pos.toNat)
            else false
          match extract_monetary_value raw with
          | some tv =>
              { d with raw_restanzen := some (if is_neg then -tv else tv),
                       restanzen_gemeinde := some |tv|, is_negative := is_neg }
          | none => taxTextFallback d rest
        else taxTextFallback d rest
      else taxTextFallback d rest

/-- `extract_tax_statement_data_v2` (main.py:933): table parse, raw-text
fallback, then the filename negativity hint. -/
def extract_tax_statement_data_v2 (text : String) (tables : List Table)
    (filename doc_type : String) : TaxData :=
  let year := extract_year_from_text text filename
  let d0 := parse_tax_statement_tables tables doc_type filename
  let d1 := { d0 with year := year }
  let d2 :=
    if d1.restanzen_gemeinde = none then taxTextFallback d1 (splitLines text) else d1
  let fl := lowerS filename
  if d2.restanzen_gemeinde ≠ none && !d2.is_negative &&
     (containsS "2002" fl || containsS "minusbetrag" fl) && !containsS "1012" fl then
    { d2 with is_negative := true }
  else d2

/-! ### Ledger (FiBu) extractor -/

/-- The extracted-ledger dict (`extract_fibu_statement_data` result, and the
element shape of `extract_combined_fibu_data` results). -/
structure FibuDoc where
  filename : String
  ty : String
  account : Option String
  saldo : Option ℚ
deriving DecidableEq, Repr

/-- One alternative-ordered, word-bounded account-token match at a position. -/
def accountTokenAt (prev : Option Char) (l : List Char) : Option String :=
  (["1012.00", "2002.00", "2006.10"] : List String).foldl
    (fun a pat =>
      a.orElse (fun _ =>
        if (decide (prev = none) || (prev.map (fun p => !isWordChar p)).getD false) &&
           pat.toList.isPrefixOf l &&
           ((match l.drop pat.toList.length with
             | [] => true
             | d :: _ => !isWordChar d) : Bool) then some pat
        else none))
    none

/-- `re.search(r'\b(1012\.00|2002\.00|2006\.10)\b', s)`: the matched group. -/
def findAccountTokenAux : Option Char → List Char → Option String
  | _, [] => none
  | prev, c :: cs =>
      match accountTokenAt prev (c :: cs) with
      | some a => some a
      | none => findAccountTokenAux (some c) cs

/-- The matched account token of one source string, if any. -/
def findAccountTokenS (s : String) : Option String := findAccountTokenAux none s.toList

/-- The account-number detection over `[filename] + lines[:15]` (main.py:990). -/
def detectAccount : List String → Option String
  | [] => none
  | src :: rest =>
      match findAccountTokenS src with
      | some a => some a
      | none => detectAccount rest

/-- Strategy 1 cell pass: every truthy cell whose value normalizes above 100
overwrites the running saldo (so the last such cell wins). -/
def rowSaldoScan (row : Row) (acc : Option ℚ) : Option ℚ :=
  row.foldl
    (fun a c =>
      if cellTruthy c then
        match extract_monetary_value (cellStr c) with
        | some v => if v > 100 then some v else a
        | none => a
      else a)
    acc

/-- Strategy 1 row pass over one table, rows already reversed: stop at the
first `total` / `anzahl buchungen` row once a saldo is present. -/
def scanRowsRev (acc : Option ℚ) : List Row → Option ℚ
  | [] => acc
  | r :: rest =>
      if r.isEmpty then scanRowsRev acc rest
      else
        let rt := joinRowLower r
        if containsS "total" rt || containsS "anzahl buchungen" rt then
          let acc2 := rowSaldoScan r acc
          if acc2.isSome then acc2 else scanRowsRev acc2 rest
        else scanRowsRev acc rest

/-- Strategy 1 of `extract_fibu_statement_data`: table scan (main.py:998). -/
def fibuStrat1 (tables : List Table) : Option ℚ :=
  tables.foldl (fun acc t => scanRowsRev acc t.reverse) none

/-- Strategy 2 (main.py:1017): last value above 100 collected from lines with
at least three numeric runs, ignoring `saldo`+`buchungstext` header lines. -/
def fibuStrat2 (lines : List String) : Option ℚ :=
  (lines.foldl
    (fun (acc : List ℚ) line =>
      if containsS "saldo" (lowerS line) && containsS "buchungstext" (lowerS line) then acc
      else
        let values := findRuns line
        if 3 ≤ values.length then
          acc ++ values.filterMap
            (fun v =>
              match extract_monetary_value v with
              | some x => if x > 100 then some x else none
              | none => none)
        else acc)
    []).getLast?

/-- Strategy 3 (main.py:1034): on a `total:` / `saldo buchungsjahr` line, the
last value above 100 scanning right to left. -/
def fibuStrat3 (lines : List String) : Option ℚ :=
  lines.findSome?
    (fun line =>
      if containsS "total:" (lowerS line) || containsS "saldo buchungsjahr" (lowerS line) then
        (findRuns line).reverse.findSome?
          (fun v =>
            match extract_monetary_value v with
            | some x => if x > 100 then some x else none
            | none => none)
      else none)

/-- `extract_fibu_statement_data` (main.py:978): account detection plus the
three saldo strategies, in order, first hit wins. -/
def extract_fibu_statement_data (text : String) (tables : List Table)
    (filename : String) : FibuDoc :=
  let lines := splitLines text
  let account := detectAccount (filename :: lines.take 15)
  let saldo :=
    match fibuStrat1 tables with
    | some v => some v
    | none =>
        match fibuStrat2 lines with
        | some v => some v
        | none => fibuStrat3 lines
  { filename := filename, ty := "fibu", account := account, saldo := saldo }

/-! ### Combined-ledger extractor -/

/-- The scan state of `extract_combined_fibu_data`: the current account and the
insertion-ordered `account_data` dict (value = endsaldo). -/
structure CombState where
  current : Option String
  accData : List (String × Option ℚ)
deriving DecidableEq, Repr

/-- Python-dict assignment on an insertion-ordered association list. -/
def setEntry (k : String) (v : Option ℚ) : List (String × Option ℚ) → List (String × Option ℚ)
  | [] => [(k, v)]
  | (k2, v2) :: rest => if k2 = k then (k, v) :: rest else (k2, v2) :: setEntry k v rest

/-- One line of the combined-ledger text state machine (main.py:1069): section
headers set the current account; an `endsaldo` line while an account is
current assigns the last parseable token (as absolute value, `0.0` when tokens
exist but none parses) and resets the current account. -/
def combStep (line : String) (next? : Option String) (st : CombState) : CombState :=
  let ll := lowerS line
  let nextStart :=
    match next? with
    | some nx => containsS "startsaldo" (lowerS nx)
    | none => false
  let st1 :=
    if containsS "1012.00" line && (containsS "forderungen" ll || nextStart) then
      { current := some "1012.00", accData := setEntry "1012.00" none st.accData }
    else st
  let st2 :=
    if containsS "2002.00" line && (containsS "verpflichtungen" ll || nextStart) then
      { current := some "2002.00", accData := setEntry "2002.00" none st1.accData }
    else st1
  match st2.current with
  | some acc =>
      if containsS "endsaldo" ll then
        let values := findNumTokens line
        let st3 :=
          if values.isEmpty then st2
          else
            match values.reverse.findSome? extract_monetary_value with
            | some v => { st2 with accData := setEntry acc (some |v|) st2.accData }
            | none => { st2 with accData := setEntry acc (some 0) st2.accData }
        { st3 with current := none }
      else st2
  | none => st2

/-- Run the combined-ledger state machine over all lines (with one-line
lookahead for the `startsaldo` trigger). -/
def combScan : List String → CombState → CombState
  | [], st => st
  | [l], st => combStep l none st
  | l :: nx :: rest, st => combScan (nx :: rest) (combStep l (some nx) st)

/-- Last truthy cell of a row (right to left) whose value normalizes. -/
def fbRowValue (row : Row) : Option ℚ :=
  row.reverse.findSome?
    (fun c => if cellTruthy c then extract_monetary_value (cellStr c) else none)

/-- The table fallback of `extract_combined_fibu_data` (main.py:1124), one
table: account headers by row text, `endsaldo` rows append a fact with the
last parseable cell (absolute value, `0.0` when none). -/
def combTableScan (filename : String) (acc : List FibuDoc) (t : Table) : List FibuDoc :=
  (t.foldl
    (fun (p : Option String × List FibuDoc) row =>
      if row.isEmpty then p
      else
        let rt := joinRowLower row
        let cur :=
          if containsS "1012.00" rt && containsS "forderungen" rt then some "1012.00"
          else if containsS "2002.00" rt && containsS "verpflichtungen" rt then some "2002.00"
          else p.1
        match cur with
        | some a =>
            if containsS "endsaldo" rt then
              match fbRowValue row with
              | some v =>
                  (none, p.2 ++ [{ filename := filename, ty := "fibu",
                                   account := some a, saldo := some |v| }])
              | none =>
                  (none, p.2 ++ [{ filename := filename, ty := "fibu",
                                   account := some a, saldo := some 0 }])
            else (cur, p.2)
        | none => (none, p.2))
    (none, acc)).2

/-- `extract_combined_fibu_data` (main.py:1053): text-scan state machine, one
fact per account that received an endsaldo; table fallback only when the text
scan produced no facts. -/
def extract_combined_fibu_data (text : String) (tables : List Table)
    (filename : String) : List FibuDoc :=
  let lines := splitLines text
  let st := combScan lines { current := none, accData := [] }
  let results := st.accData.filterMap
    (fun p => p.2.map (fun x =>
      ({ filename := filename, ty := "fibu", account := some p.1, saldo := some x } : FibuDoc)))
  if results.isEmpty then tables.foldl (combTableScan filename) [] else results

/-! ### Reconciliation engine -/

/-- Round half to even (Python `round` tie behaviour) to an integer, computed
on the numerator and denominator (`f = ⌊q⌋` via floor division, and the
fractional part `r = q − f` compared with `1/2` through `2·(n − f·d)` vs `d`)
so that it evaluates inside the kernel. -/
def roundHalfEven (q : ℚ) : ℤ :=
  let n := q.num
  let d := (q.den : ℤ)
  let f := n.fdiv d
  let r2 := 2 * (n - f * d)
  if r2 < d then f
  else if d < r2 then f + 1
  else if f % 2 = 0 then f else f + 1

/-- Python `round(q, 2)`. -/
def round2 (q : ℚ) : ℚ := mkRat (roundHalfEven (mkRat (q.num * 100) q.den)) 100

/-- Kernel-computable absolute difference: `qAbsSub a b = |a - b|`
(see `qAbsSub_eq`). -/
def qAbsSub (a b : ℚ) : ℚ :=
  mkRat |a.num * (b.den : ℤ) - b.num * (a.den : ℤ)| (a.den * b.den)

/-- `calculate_status` (main.py:1299). -/
def calculate_status (tax_value fibu_value : Option ℚ) : String × ℚ :=
  match tax_value, fibu_value with
  | some t, some f =>
      let diff := round2 (qAbsSub t f)
      (if diff < mkRat 1 100 then "MATCH" else "MISMATCH", diff)
  | none, none => ("NO_DATA", 0)
  | _, _ => ("INCOMPLETE", 0)

/-- Group a reversed digit list into blocks of three. -/
def chunk3 : List Char → List (List Char)
  | [] => []
  | [a] => [[a]]
  | [a, b] => [[a, b]]
  | a :: b :: c :: rest => [a, b, c] :: chunk3 rest

/-- Thousands grouping with commas, as in Python format `,`. -/
def groupThousands (s : String) : String :=
  String.intercalate "," (((chunk3 s.toList.reverse).map List.reverse).reverse.map String.mk)

/-- Python `f"{q:,.2f}"` on the (already two-decimal, nonnegative) difference. -/
def format2 (q : ℚ) : String :=
  let n := (roundHalfEven (q * 100)).natAbs
  let fr := n % 100
  (if q < 0 then "-" else "") ++ groupThousands (toString (n / 100)) ++ "." ++
    (if fr < 10 then "0" else "") ++ toString fr

/-- `get_difference_hint` (main.py:1311). -/
def get_difference_hint (diff : ℚ) (rule : String) : Option String :=
  if diff < mkRat 1 100 then none
  else if rule = "R805" then
    some ("Differenz von CHF " ++ format2 diff ++
      ". Prüfen Sie auf nicht verbuchte Verzugszinsen oder fehlende Steuerabrechnungen.")
  else if rule = "R806" then
    some ("Differenz von CHF " ++ format2 diff ++
      ". Prüfen Sie auf ausstehende Rückerstattungen oder Gutschriften.")
  else some ("Differenz von CHF " ++ format2 diff ++ " festgestellt.")

/-- `TaxItem` (main.py:398). -/
structure TaxItem where
  year : String
  amount : ℚ
  source : String
  label : Option String
  doc_type : Option String
deriving DecidableEq, Repr

/-- `FibuItem` (main.py:406). -/
structure FibuItem where
  account : String
  amount : ℚ
  source : String
  label : Option String
deriving DecidableEq, Repr

/-- `AuditSummary` (main.py:418). -/
structure AuditSummary where
  rule : String
  description : String
  status : String
  difference : ℚ
  tax_total : Option ℚ
  fibu_total : Option ℚ
  hint : Option String
deriving DecidableEq, Repr

/-- `AuditDetails` (main.py:413). -/
structure AuditDetails where
  tax_items : List TaxItem
  fibu_items : List FibuItem
deriving DecidableEq, Repr

/-- `AuditResult` (main.py:428). -/
structure AuditResult where
  summary : AuditSummary
  details : AuditDetails
deriving DecidableEq, Repr

/-- The fields of an income-statement dict used by the audit (none are). -/
structure ErDoc where
  filename : String
deriving DecidableEq, Repr

/-- The fields of a balance-sheet dict used by the audit. -/
structure BilanzDoc where
  filename : String
  account_1012 : Option ℚ
  account_2002 : Option ℚ
deriving DecidableEq, Repr

/-- Kernel-computable rational addition: `qadd a b = a + b` (see `qadd_eq`). -/
def qadd (a b : ℚ) : ℚ :=
  mkRat (a.num * (b.den : ℤ) + b.num * (a.den : ℤ)) (a.den * b.den)

/-- Sum of tax-item amounts (Python `sum`). -/
def sumTaxAmounts (l : List TaxItem) : ℚ := l.foldl (fun a i => qadd a i.amount) 0

/-- Sum of ledger-item amounts (Python `sum`). -/
def sumFibuAmounts (l : List FibuItem) : ℚ := l.foldl (fun a i => qadd a i.amount) 0

/-- Python `round(total, 2) if total else None`: `0` is falsy. -/
def reportedTotal (total : Option ℚ) : Option ℚ :=
  match total with
  | some v => if v ≠ 0 then some (round2 v) else none
  | none => none

/-- Build one rule's `AuditResult` from its buckets. -/
def buildRuleResult (rule description : String) (tax_items : List TaxItem)
    (fibu_items : List FibuItem) : AuditResult :=
  let tax_total := if tax_items.isEmpty then none else some (sumTaxAmounts tax_items)
  let fibu_total := if fibu_items.isEmpty then none else some (sumFibuAmounts fibu_items)
  let sd := calculate_status tax_total fibu_total
  { summary :=
      { rule := rule, description := description, status := sd.1, difference := sd.2,
        tax_total := reportedTotal tax_total, fibu_total := reportedTotal fibu_total,
        hint := if sd.1 = "MISMATCH" then get_difference_hint sd.2 rule else none },
    details := { tax_items := tax_items, fibu_items := fibu_items } }

/-- `perform_audit_with_breakdown` (main.py:1324). -/
def perform_audit_with_breakdown (tax_docs : List TaxData) (fibu_docs : List FibuDoc)
    (er_docs : List ErDoc) (bilanz_docs : List BilanzDoc) : List AuditResult :=
  let _ := er_docs
  let buckets := tax_docs.foldl
    (fun (p : List TaxItem × List TaxItem) doc =>
      match doc.restanzen_gemeinde with
      | some amt =>
          if amt > 0 then
            let item : TaxItem :=
              { year := doc.year, amount := amt, source := doc.filename,
                label := some ("Total Restanzen (" ++ doc.ty ++ ")"),
                doc_type := some doc.ty }
            if doc.is_negative then (p.1, p.2 ++ [item]) else (p.1 ++ [item], p.2)
          else p
      | none => p)
    ([], [])
  let fibu_items_r805_0 := fibu_docs.filterMap
    (fun d =>
      if d.account = some "1012.00" then
        d.saldo.map (fun s =>
          ({ account := "1012.00", amount := s, source := d.filename,
             label := some "Kontoauszug Saldo" } : FibuItem))
      else none)
  let fibu_items_r805 :=
    if fibu_items_r805_0.isEmpty then
      bilanz_docs.filterMap
        (fun d => d.account_1012.map (fun v =>
          ({ account := "1012.xx", amount := v, source := d.filename,
             label := some "Bilanz Bestand" } : FibuItem)))
    else fibu_items_r805_0
  let fibu_items_r806_0 := fibu_docs.filterMap
    (fun d =>
      if d.account = some "2002.00" then
        d.saldo.map (fun s =>
          ({ account := "2002.00", amount := s, source := d.filename,
             label := some "Kontoauszug Saldo" } : FibuItem))
      else none)
  let fibu_items_r806 :=
    if fibu_items_r806_0.isEmpty then
      bilanz_docs.filterMap
        (fun d => d.account_2002.map (fun v =>
          ({ account := "2002.xx", amount := v, source := d.filename,
             label := some "Bilanz Bestand" } : FibuItem)))
    else fibu_items_r806_0
  [buildRuleResult "R805"
      "Steuerforderungen (Konto 1012.00) vs. Steuerabrechnungen (positive Restanzen)"
      buckets.1 fibu_items_r805,
   buildRuleResult "R806"
      "Steuerverpflichtungen (Konto 2002.00) vs. Steuerabrechnungen (negative Restanzen)"
      buckets.2 fibu_items_r806]

/-- The combined-ledger dict invariant: stored endsaldi are nonnegative. -/
def combInv (st : CombState) : Prop :=
  ∀ p ∈ st.accData, ∀ x : ℚ, p.2 = some x → 0 ≤ x


/-! ### Helper lemmas -/

/-- `qAbsSub` agrees with `|a - b|`. -/
lemma qAbsSub_eq (a b : ℚ) : qAbsSub a b = |a - b| := by
  unfold qAbsSub
  rw [Rat.mkRat_eq_div]
  have ha : ((a.den : ℚ)) ≠ 0 := by
    exact_mod_cast a.den_nz
  have hb : ((b.den : ℚ)) ≠ 0 := by
    exact_mod_cast b.den_nz
  have hsub : a - b = ((a.num * (b.den : ℤ) - b.num * (a.den : ℤ) : ℤ) : ℚ) /
      (((a.den * b.den : ℕ) : ℚ)) := by
    conv_lhs => rw [← Rat.num_div_den a, ← Rat.num_div_den b]
    push_cast
    field_simp
    ring
  rw [hsub, abs_div]
  have hd : |((a.den * b.den : ℕ) : ℚ)| = ((a.den * b.den : ℕ) : ℚ) := by
    rw [abs_of_nonneg]
    positivity
  rw [hd]
  push_cast
  ring_nf

/-- The `0.01` threshold in kernel-computable form. -/
lemma mkRat_one_hundredth : (mkRat 1 100 : ℚ) = 1 / 100 := by
  rw [Rat.mkRat_eq_div]
  norm_num

/-- `qadd` agrees with `+`. -/
lemma qadd_eq (a b : ℚ) : qadd a b = a + b := by
  unfold qadd
  rw [Rat.mkRat_eq_div]
  have ha : ((a.den : ℚ)) ≠ 0 := by exact_mod_cast a.den_nz
  have hb : ((b.den : ℚ)) ≠ 0 := by exact_mod_cast b.den_nz
  conv_rhs => rw [← Rat.num_div_den a, ← Rat.num_div_den b, div_add_div _ _ ha hb]
  push_cast
  ring_nf

/-- A successfully parsed cleaned string is a nonnegative rational. -/
lemma parseFloat?_nonneg {t : String} {v : ℚ} (h : parseFloat? t = some v) : 0 ≤ v := by
  unfold parseFloat? at h
  simp only at h
  split at h
  · injection h with h
    subst h
    rw [Rat.mkRat_eq_div]
    positivity
  · exact absurd h (by simp)

/-- A generic preservation principle for left folds. -/
lemma foldl_preserves {α β : Type} (P : β → Prop) (f : β → α → β)
    (h : ∀ b a, P b → P (f b a)) : ∀ (l : List α) (b : β), P b → P (l.foldl f b) := by
  intro l
  induction l with
  | nil => intro b hb; exact hb
  | cons x xs ih => intro b hb; exact ih (f b x) (h b x hb)

/-- Dropping a while-prefix commutes with a final element that fails the test. -/
lemma dropWhile_append_singleton {p : Char → Bool} {c : Char} (hc : p c = false)
    (A : List Char) : List.dropWhile p (A ++ [c]) = List.dropWhile p A ++ [c] := by
  induction A with
  | nil => simp [List.dropWhile, hc]
  | cons x xs ih => by_cases hx : p x <;> simp [List.dropWhile, hx, ih]

/-- Stripping keeps a non-whitespace first character in place. -/
lemma pyStrip_toList_startsWith {c : Char} (hc : isPySpace c = false) {rest : List Char}
    {s : String} (h : s.toList = c :: rest) :
    ∃ rest2, (pyStrip s).toList = c :: rest2 := by
  unfold pyStrip
  rw [h]
  simp only [List.dropWhile_cons, hc, Bool.false_eq_true, if_false, reduceIte]
  refine ⟨(List.dropWhile isPySpace rest.reverse).reverse, ?_⟩
  have : (c :: rest).reverse = rest.reverse ++ [c] := by simp
  rw [this, dropWhile_append_singleton hc]
  simp

/-- Stripping keeps a non-whitespace last character in place. -/
lemma pyStrip_toList_endsWith {c : Char} (hc : isPySpace c = false) {init : List Char}
    {s : String} (h : s.toList = init ++ [c]) :
    ∃ init2, (pyStrip s).toList = init2 ++ [c] := by
  unfold pyStrip
  rw [h, dropWhile_append_singleton hc]
  refine ⟨List.dropWhile isPySpace init, ?_⟩
  have : (List.dropWhile isPySpace init ++ [c]).reverse =
      c :: (List.dropWhile isPySpace init).reverse := by simp
  rw [this]
  simp [List.dropWhile_cons, hc]

/-- If the sign flag of `extract_monetary_value` is set (on the stripped
token), any parsed value is nonpositive. -/
lemma emv_nonpos_of_flag {s : String} {v : ℚ}
    (hneg : (startsWithS "-" (pyStrip s) || startsWithS "(" (pyStrip s) ||
             endsWithS "-" (pyStrip s) || endsWithS ")" (pyStrip s)) = true)
    (h : extract_monetary_value s = some v) : v ≤ 0 := by
  unfold extract_monetary_value at h
  simp only [hneg, if_true] at h
  split at h
  · exact absurd h (by simp)
  · split at h
    · exact absurd h (by simp)
    · split at h
      · exact absurd h (by simp)
      · split at h
        · exact absurd h (by simp)
        · split at h
          · rename_i v2 hv2
            injection h with h
            subst h
            have := parseFloat?_nonneg hv2
            linarith
          · exact absurd h (by simp)

/-- C10 general part: the sign-flag conditions on the raw token force a
nonpositive result. -/
lemma emv_nonpos_of_raw_flag {s : String} {v : ℚ}
    (hneg : (startsWithS "-" s || startsWithS "(" s ||
             endsWithS "-" s || endsWithS ")" s) = true)
    (h : extract_monetary_value s = some v) : v ≤ 0 := by
  apply emv_nonpos_of_flag (s := s) ?_ h
  have hstart : ∀ c : Char, isPySpace c = false →
      startsWithS (String.mk [c]) s = true →
      startsWithS (String.mk [c]) (pyStrip s) = true := by
    intro c hc hs
    unfold startsWithS at hs ⊢
    have hex : ∃ rest, s.toList = c :: rest := by
      cases hl : s.toList with
      | nil => rw [hl] at hs; simp [List.isPrefixOf] at hs
      | cons x xs =>
          rw [hl] at hs
          simp [List.isPrefixOf] at hs
          exact ⟨xs, by rw [hs]⟩
    obtain ⟨rest, hrest⟩ := hex
    obtain ⟨rest2, h2⟩ := pyStrip_toList_startsWith hc hrest
    rw [h2]
    simp [List.isPrefixOf]
  have hend : ∀ c : Char, isPySpace c = false →
      endsWithS (String.mk [c]) s = true →
      endsWithS (String.mk [c]) (pyStrip s) = true := by
    intro c hc hs
    unfold endsWithS at hs ⊢
    have : ∃ init, s.toList = init ++ [c] := by
      cases hl : s.toList.reverse with
      | nil => rw [hl] at hs; simp [List.isPrefixOf] at hs
      | cons x xs =>
          rw [hl] at hs
          simp [List.isPrefixOf] at hs
          refine ⟨xs.reverse, ?_⟩
          have h2 := congrArg List.reverse hl
          simp at h2
          rw [hs]
          exact h2
    obtain ⟨init, hinit⟩ := this
    obtain ⟨init2, h2⟩ := pyStrip_toList_endsWith hc hinit
    rw [h2]
    simp [List.isPrefixOf]
  have h1 := hstart '-' (by decide)
  have h2 := hstart '(' (by decide)
  have h3 := hend '-' (by decide)
  have h4 := hend ')' (by decide)
  simp only [Bool.or_eq_true] at hneg ⊢
  rcases hneg with ((ha | hb) | hc2) | hd
  · exact Or.inl (Or.inl (Or.inl (h1 ha)))
  · exact Or.inl (Or.inl (Or.inr (h2 hb)))
  · exact Or.inl (Or.inr (h3 hc2))
  · exact Or.inr (h4 hd)

/-- C10: in `extract_monetary_value`, each of the four sign delimiters (leading
`-`, leading `(`, trailing `-`, trailing `)`) independently negates the parsed
value; in particular `"500.00)"`, with an unmatched `)`, parses to `-500`. -/
theorem claim_C10 :
    (∀ (s : String) (v : ℚ), 2 ≤ s.length →
       (startsWithS "-" s || startsWithS "(" s ||
        endsWithS "-" s || endsWithS ")" s) = true →
       extract_monetary_value s = some v → v ≤ 0) ∧
    extract_monetary_value "500.00)" = some (-500) := by
  constructor
  · intro s v _ hneg h
    exact emv_nonpos_of_raw_flag hneg h
  · decide

/-- Witness for C10 at the concrete token `"-45.00"`. -/
theorem claim_C10_witness :
    2 ≤ ("-45.00" : String).length ∧
    (startsWithS "-" "-45.00" || startsWithS "(" "-45.00" ||
     endsWithS "-" "-45.00" || endsWithS ")" "-45.00") = true ∧
    extract_monetary_value "-45.00" = some (-45) ∧ (-45 : ℚ) ≤ 0 :=
  ⟨by decide, by decide, by decide,
    claim_C10.1 "-45.00" (-45) (by decide) (by decide) (by decide)⟩

/-- C1: `calculate_status` computes `round(|tax − ledger|, 2)` with MATCH
strictly below 0.01 when both totals are present (1000 vs 1000.004 is a MATCH
with difference 0, 1000 vs 1000.009 a MISMATCH with difference 0.01), NO_DATA
with difference 0 when both are absent, and INCOMPLETE with difference 0 when
exactly one is present. -/
theorem claim_C1 :
    (∀ a b : ℚ, calculate_status (some a) (some b) =
       (if round2 |a - b| < 1 / 100 then "MATCH" else "MISMATCH", round2 |a - b|)) ∧
    calculate_status (some 1000) (some (1000 + 4 / 1000)) = ("MATCH", 0) ∧
    calculate_status (some 1000) (some (1000 + 9 / 1000)) = ("MISMATCH", 1 / 100) ∧
    calculate_status none none = ("NO_DATA", 0) ∧
    (∀ a : ℚ, calculate_status (some a) none = ("INCOMPLETE", 0)) ∧
    (∀ b : ℚ, calculate_status none (some b) = ("INCOMPLETE", 0)) := by
  have hstruct : ∀ a b : ℚ, calculate_status (some a) (some b) =
      (if round2 |a - b| < 1 / 100 then "MATCH" else "MISMATCH", round2 |a - b|) := by
    intro a b
    show (if round2 (qAbsSub a b) < mkRat 1 100 then "MATCH" else "MISMATCH",
          round2 (qAbsSub a b)) = _
    rw [qAbsSub_eq, mkRat_one_hundredth]
  have e4 : (1000 + 4 / 1000 : ℚ) = mkRat 250001 250 := by
    rw [Rat.mkRat_eq_div]; norm_num
  have e9 : (1000 + 9 / 1000 : ℚ) = mkRat 1000009 1000 := by
    rw [Rat.mkRat_eq_div]; norm_num
  have e100 : (1 / 100 : ℚ) = mkRat 1 100 := mkRat_one_hundredth.symm
  refine ⟨hstruct, ?_, ?_, rfl, fun _ => rfl, fun _ => rfl⟩
  · rw [e4]; decide
  · rw [e9, e100]; decide

/-- C9: the value normalizer is total — every input yields `none` ("not a
number") or a value — and a float-parse failure after cleaning yields `none`
rather than an exception. -/
theorem claim_C9 :
    (∀ s : String, extract_monetary_value s = none ∨
       ∃ v : ℚ, extract_monetary_value s = some v) ∧
    (∀ s run : String,
       2 ≤ (pyStrip s).length →
       isRowRef (stripSignCurrency (pyStrip s)) = false →
       containsS "%" (stripSignCurrency (pyStrip s)) = false →
       firstRun (stripSignCurrency (pyStrip s)) = some run →
       parseFloat? (cleanNumber run) = none →
       extract_monetary_value s = none) := by
  constructor
  · intro s
    cases h : extract_monetary_value s with
    | none => exact Or.inl rfl
    | some v => exact Or.inr ⟨v, rfl⟩
  · intro s run hlen hrow hpct hrun hparse
    unfold extract_monetary_value
    simp only
    rw [if_neg (by omega), hrow, hpct, hrun]
    simp [hparse]

/-- Witness for C9 at `"1.2.3"`, which cleans to a two-dot string that fails
the float parse. -/
theorem claim_C9_witness :
    2 ≤ (pyStrip "1.2.3").length ∧
    isRowRef (stripSignCurrency (pyStrip "1.2.3")) = false ∧
    containsS "%" (stripSignCurrency (pyStrip "1.2.3")) = false ∧
    firstRun (stripSignCurrency (pyStrip "1.2.3")) = some "1.2.3" ∧
    parseFloat? (cleanNumber "1.2.3") = none ∧
    extract_monetary_value "1.2.3" = none :=
  ⟨by decide, by decide, by decide, by decide, by decide,
    claim_C9.2 "1.2.3" "1.2.3" (by decide) (by decide) (by decide) (by decide) (by decide)⟩

/-- A character that fails the test survives `dropWhile`. -/
lemma mem_dropWhile_of_mem {p : Char → Bool} {c : Char} (hc : p c = false) :
    ∀ {l : List Char}, c ∈ l → c ∈ l.dropWhile p := by
  intro l h
  induction l with
  | nil => cases h
  | cons x xs ih =>
      by_cases hx : p x = true
      · rw [List.dropWhile_cons, if_pos hx]
        rcases List.mem_cons.mp h with rfl | h2
        · rw [hx] at hc; cases hc
        · exact ih h2
      · rw [List.dropWhile_cons, if_neg hx]
        exact h

/-- A non-whitespace character survives Python `strip`. -/
lemma mem_pyStrip {c : Char} (hc : isPySpace c = false) {s : String}
    (h : c ∈ s.toList) : c ∈ (pyStrip s).toList := by
  unfold pyStrip
  show c ∈ ((s.toList.dropWhile isPySpace).reverse.dropWhile isPySpace).reverse
  rw [List.mem_reverse]
  apply mem_dropWhile_of_mem hc
  rw [List.mem_reverse]
  exact mem_dropWhile_of_mem hc h

/-- Single-character containment is list membership. -/
lemma containsSeg_single {c : Char} : ∀ {l : List Char}, containsSeg [c] l = true ↔ c ∈ l := by
  intro l
  induction l with
  | nil => simp [containsSeg]
  | cons x xs ih =>
      simp only [containsSeg, List.isPrefixOf, Bool.and_true, Bool.or_eq_true, ih,
        List.mem_cons, beq_iff_eq]

/-- A `%` anywhere in the input survives stripping, so the normalizer rejects. -/
lemma emv_none_of_pct {s : String} (h : containsS "%" s = true) :
    extract_monetary_value s = none := by
  have hmem : '%' ∈ s.toList := by
    have := containsSeg_single.mp h
    exact this
  have hmem2 : '%' ∈ (pyStrip s).toList := mem_pyStrip (by decide) hmem
  have hmem3 : '%' ∈ (stripSignCurrency (pyStrip s)).toList := by
    unfold stripSignCurrency
    show '%' ∈ (pyStrip s).toList.filter _
    rw [List.mem_filter]
    exact ⟨hmem2, by decide⟩
  have hpct : containsS "%" (stripSignCurrency (pyStrip s)) = true :=
    containsSeg_single.mpr hmem3
  unfold extract_monetary_value
  simp only
  split
  · rfl
  · split <;> rfl

/-- A token whose stripped form is an exact `DDDD.DD` row reference is
rejected. -/
lemma emv_none_of_rowRef {s : String}
    (h : isRowRef (stripSignCurrency (pyStrip s)) = true) :
    extract_monetary_value s = none := by
  unfold extract_monetary_value
  simp only
  split <;> rfl

/-- C5: normalizer behaviour — apostrophe thousands separators, parenthetical
negativity, `%` rejection (for every token), exact-`DDDD.DD` row-reference
rejection after stripping (for every token), acceptance of `"45.00"`, comma as
decimal separator without a dot, and comma dropped alongside a dot. -/
theorem claim_C5 :
    extract_monetary_value "1'234.50" = some (1234.5 : ℚ) ∧
    extract_monetary_value "(500.00)" = some (-500) ∧
    extract_monetary_value "12.5%" = none ∧
    (∀ s : String, containsS "%" s = true → extract_monetary_value s = none) ∧
    (∀ s : String, isRowRef (stripSignCurrency (pyStrip s)) = true →
       extract_monetary_value s = none) ∧
    extract_monetary_value "1012.00" = none ∧
    extract_monetary_value "45.00" = some 45 ∧
    extract_monetary_value "1,5" = some (3 / 2) ∧
    extract_monetary_value "1,234.50" = some (1234.5 : ℚ) := by
  have e1 : (1234.5 : ℚ) = mkRat 2469 2 := by
    rw [Rat.mkRat_eq_div]; norm_num
  have e2 : (3 / 2 : ℚ) = mkRat 3 2 := by
    rw [Rat.mkRat_eq_div]; norm_num
  refine ⟨by rw [e1]; decide, by decide, by decide,
    fun s h => emv_none_of_pct h, fun s h => emv_none_of_rowRef h,
    by decide, by decide, by rw [e2]; decide, by rw [e1]; decide⟩

/-- Witness for C5's two universally quantified rejection rules, at `"50%"`
and `"CHF 2002.00"`. -/
theorem claim_C5_witness :
    containsS "%" "50%" = true ∧ extract_monetary_value "50%" = none ∧
    isRowRef (stripSignCurrency (pyStrip "CHF 2002.00")) = true ∧
    extract_monetary_value "CHF 2002.00" = none :=
  ⟨by decide, claim_C5.2.2.2.1 "50%" (by decide), by decide,
    claim_C5.2.2.2.2.1 "CHF 2002.00" (by decide)⟩

/-- C6 counterexample: on text containing both `jahresabschluss` and
`steuerrestanz` (filename without `fibu`, no earlier rule firing), the
cascade returns `JA`, not `SR` — the AnnualStatement text trigger is checked
before the ResidualStatement one. -/
theorem claim_C6_counterexample :
    containsS "steuerrestanz" (lowerS "Jahresabschluss Steuerrestanzen 9999") = true ∧
    containsS "quellensteuer" (lowerS "Jahresabschluss Steuerrestanzen 9999") = false ∧
    containsS "qvo" (lowerS "doc.pdf") = false ∧
    (containsS "fibu" (lowerS "doc.pdf") && containsS "konto" (lowerS "doc.pdf")) = false ∧
    startsDigitsDashFibu (lowerS "doc.pdf") = false ∧
    containsS "kontoauszug" (lowerS "Jahresabschluss Steuerrestanzen 9999") = false ∧
    hasAccountToken "Jahresabschluss Steuerrestanzen 9999" = false ∧
    containsS "fibukonto" (lowerS "Jahresabschluss Steuerrestanzen 9999") = false ∧
    (containsS "nachsteuer" (lowerS "doc.pdf")) = false ∧
    hasSRFilePat (lowerS "doc.pdf") = false ∧
    hasJAFilePat (lowerS "doc.pdf") = false ∧
    containsS "nachsteuern" (lowerS "Jahresabschluss Steuerrestanzen 9999") = false ∧
    detect_tax_document_type "Jahresabschluss Steuerrestanzen 9999" "doc.pdf" = "JA" ∧
    detect_tax_document_type "Jahresabschluss Steuerrestanzen 9999" "doc.pdf" ≠ "SR" := by
  decide

/-- C6 amended: with no earlier rule firing — including, as the counterexample
forces, the `jahresabschluss` text trigger, which the cascade checks first —
text containing `steuerrestanz` classifies as `SR`. -/
theorem claim_C6 (text filename : String)
    (h1 : containsS "quellensteuer" (lowerS text) = false)
    (h2 : containsS "qvo" (lowerS filename) = false)
    (h3 : (containsS "fibu" (lowerS filename) && containsS "konto" (lowerS filename)) = false)
    (h4 : startsDigitsDashFibu (lowerS filename) = false)
    (h5 : containsS "kontoauszug" (lowerS text) = false)
    (h6 : ((containsS "konti" (lowerS filename) || containsS "restanzen" (lowerS filename)) &&
           hasAccountToken text) = false)
    (h7 : (containsS "fibukonto" (lowerS text) || containsS "fibukontoblatt" (lowerS text)) = false)
    (h8 : containsS "forderungen allgemeine gemeindesteuern" (lowerS text) = false)
    (h9 : containsS "verpflichtungen aus allgemeinen gemeindesteuern" (lowerS text) = false)
    (h10 : (containsS "nachsteuer" (lowerS filename) &&
            !containsS "fibu" (lowerS filename)) = false)
    (h11 : hasSRFilePat (lowerS filename) = false)
    (h12 : hasJAFilePat (lowerS filename) = false)
    (h13 : containsS "abrechnung über den ertrag von nachsteuern" (lowerS text) = false)
    (h14 : (containsS "nachsteuern" (lowerS text) &&
            containsS "total restanzen nachsteuern" (lowerS text)) = false)
    (h15 : (containsS "jahresabschluss" (lowerS text) &&
            !containsS "fibu" (lowerS filename)) = false)
    (h16 : containsS "steuerrestanz" (lowerS text) = true) :
    detect_tax_document_type text filename = "SR" := by
  unfold detect_tax_document_type
  simp only [h1, h2, h3, h4, h5, h6, h7, h8, h9, h10, h11, h12, h13, h14, h15, h16,
    Bool.or_self, Bool.or_false, Bool.false_or, Bool.and_false, Bool.false_and,
    Bool.false_eq_true, if_false, if_true, reduceIte]

/-- Witness for C6 at plain residual-statement text. -/
theorem claim_C6_witness :
    containsS "steuerrestanz" (lowerS "Steuerrestanzen per Ende Periode") = true ∧
    detect_tax_document_type "Steuerrestanzen per Ende Periode" "doc.pdf" = "SR" :=
  ⟨by decide,
    claim_C6 "Steuerrestanzen per Ende Periode" "doc.pdf" (by decide) (by decide)
      (by decide) (by decide) (by decide) (by decide) (by decide) (by decide) (by decide)
      (by decide) (by decide) (by decide) (by decide) (by decide) (by decide) (by decide)⟩

/-- A token the normalizer accepts is nonempty. -/
lemma emv_some_toList_ne {s : String} {v : ℚ} (h : extract_monetary_value s = some v) :
    s.toList.isEmpty = false := by
  cases htl : s.toList with
  | nil =>
      exfalso
      unfold extract_monetary_value pyStrip at h
      rw [htl] at h
      simp [List.dropWhile] at h
  | cons x xs => rfl

/-- The row-45 branch on a `vortrag` row: only the roll-forward field is set. -/
lemma processTaxRow_row45 (a45 : String) (v45 : ℚ) (d : TaxData)
    (h45 : extract_monetary_value a45 = some v45)
    (hrt : containsS "vortrag"
      (joinRowLower [some "45", some "restanzenvortrag", none, none, some a45]) = true) :
    processTaxRow "SR" 4 d [some "45", some "restanzenvortrag", none, none, some a45] =
      { d with restanzenvortrag_gemeinde := some v45 } := by
  have hne := emv_some_toList_ne h45
  have hne2 : ¬ (a45.data = []) := by
    intro hh
    have hE : a45.toList.isEmpty = true := by
      show a45.data.isEmpty = true
      rw [hh]
      rfl
    rw [hE] at hne
    cases hne
  have hpi : parseInt? (pyStrip (cellStr (some "45"))) = some 45 := by decide
  unfold processTaxRow
  simp only [hpi, hrt]
  simp [cellTruthy, cellStr, extract_value_from_row, List.get?, h45, hne, hne2]

/-- The row-51 branch always records the fact (abs value plus sign flag). -/
lemma processTaxRow_row51 (a51 : String) (v51 : ℚ) (d : TaxData)
    (h51 : extract_monetary_value a51 = some v51) :
    processTaxRow "SR" 4 d [some "51", some "total restanzen", none, none, some a51] =
      recordFact d v51 := by
  have hne := emv_some_toList_ne h51
  have hne2 : ¬ (a51.data = []) := by
    intro hh
    have hE : a51.toList.isEmpty = true := by
      show a51.data.isEmpty = true
      rw [hh]
      rfl
    rw [hE] at hne
    cases hne
  have hpi : parseInt? (pyStrip (cellStr (some "51"))) = some 51 := by decide
  unfold processTaxRow
  simp only [hpi]
  simp [cellTruthy, cellStr, extract_value_from_row, List.get?, h51, hne, hne2]

/-- C4: with both a row-45 `vortrag` row and a row-51 row carrying values in
the target column, the extracted fact's amount is the absolute value of the
row-51 cell (sign in the flag), in either row order; the row-45 value lands
only in the separate roll-forward field. -/
theorem claim_C4 (a45 a51 fn : String) (v45 v51 : ℚ)
    (h45 : extract_monetary_value a45 = some v45)
    (h51 : extract_monetary_value a51 = some v51)
    (hg45 : containsS "politische gemeinde" (lowerS a45) = false)
    (hg51 : containsS "politische gemeinde" (lowerS a51) = false)
    (hrt : containsS "vortrag"
      (joinRowLower [some "45", some "restanzenvortrag", none, none, some a45]) = true) :
    ∀ t ∈ ([[[some "45", some "restanzenvortrag", none, none, some a45],
             [some "51", some "total restanzen", none, none, some a51]],
            [[some "51", some "total restanzen", none, none, some a51],
             [some "45", some "restanzenvortrag", none, none, some a45]]] : List Table),
      (parse_tax_statement_tables [t] "SR" fn).restanzen_gemeinde = some |v51| ∧
      (parse_tax_statement_tables [t] "SR" fn).is_negative = decide (v51 < 0) ∧
      (parse_tax_statement_tables [t] "SR" fn).restanzenvortrag_gemeinde = some v45 := by
  have hcol : ∀ t ∈ ([[[some "45", some "restanzenvortrag", none, none, some a45],
             [some "51", some "total restanzen", none, none, some a51]],
            [[some "51", some "total restanzen", none, none, some a51],
             [some "45", some "restanzenvortrag", none, none, some a45]]] : List Table),
      headerScanTable t 4 = 4 := by
    intro t ht
    simp only [List.mem_cons, List.not_mem_nil, or_false] at ht
    rcases ht with rfl | rfl
    · simp [headerScanTable, findGemeindeColRow, cellStr, cellTruthy, hg45, hg51]
      decide
    · simp [headerScanTable, findGemeindeColRow, cellStr, cellTruthy, hg45, hg51]
      decide
  intro t ht
  have hc := hcol t ht
  simp only [List.mem_cons, List.not_mem_nil, or_false] at ht
  rcases ht with rfl | rfl
  · rw [parse_tax_statement_tables]
    simp only [List.foldl, hc]
    rw [processTaxRow_row45 a45 v45 _ h45 hrt, processTaxRow_row51 a51 v51 _ h51]
    simp [recordFact]
  · rw [parse_tax_statement_tables]
    simp only [List.foldl, hc]
    rw [processTaxRow_row51 a51 v51 _ h51, processTaxRow_row45 a45 v45 _ h45 hrt]
    simp [recordFact]

/-- Witness for C4 with a positive roll-forward of 100 and a row-51 value of
−250, in the first row order. -/
theorem claim_C4_witness :
    extract_monetary_value "-250.00" = some (-250) ∧
    (parse_tax_statement_tables
        [[[some "45", some "restanzenvortrag", none, none, some "100.00"],
          [some "51", some "total restanzen", none, none, some "-250.00"]]]
        "SR" "sr.pdf").restanzen_gemeinde = some 250 ∧
    (parse_tax_statement_tables
        [[[some "45", some "restanzenvortrag", none, none, some "100.00"],
          [some "51", some "total restanzen", none, none, some "-250.00"]]]
        "SR" "sr.pdf").is_negative = true ∧
    (parse_tax_statement_tables
        [[[some "45", some "restanzenvortrag", none, none, some "100.00"],
          [some "51", some "total restanzen", none, none, some "-250.00"]]]
        "SR" "sr.pdf").restanzenvortrag_gemeinde = some 100 := by
  have h := claim_C4 "100.00" "-250.00" "sr.pdf" 100 (-250) (by decide) (by decide)
    (by decide) (by decide) (by decide)
    [[some "45", some "restanzenvortrag", none, none, some "100.00"],
     [some "51", some "total restanzen", none, none, some "-250.00"]]
    (List.mem_cons_self _ _)
  refine ⟨by decide, ?_, ?_, h.2.2⟩
  · rw [h.1]
    norm_num
  · rw [h.2.1]
    decide

/-- C7: the single-account ledger extractor takes its saldo from strategy 1
whenever strategy 1 yields a value (strategies 2 and 3 never run then, and no
values are blended); on a table whose backward scan hits the `Total` row
first, the saldo is the last cell above 100 of that row (300.75, not 200.50,
not the earlier `Anzahl Buchungen` row's 150.25, and not the text values
9000/650.50 that strategies 2 and 3 would produce). -/
theorem claim_C7 :
    (∀ (text : String) (tables : List Table) (fn : String) (v : ℚ),
       fibuStrat1 tables = some v →
       (extract_fibu_statement_data text tables fn).saldo = some v) ∧
    (extract_fibu_statement_data "9'000.00 8'000.00 7'000.00\nTotal: 650.50"
        [[[some "Anzahl Buchungen", some "150.25"],
          [some "Total", some "200.50", some "300.75"],
          [some "zzz"]]] "x.pdf").saldo = some (300.75 : ℚ) := by
  constructor
  · intro text tables fn v h
    unfold extract_fibu_statement_data
    simp only [h]
  · rw [show (300.75 : ℚ) = mkRat 1203 4 by rw [Rat.mkRat_eq_div]; norm_num]
    decide

/-- Witness for C7's precedence statement at the concrete table. -/
theorem claim_C7_witness :
    fibuStrat1 [[[some "Anzahl Buchungen", some "150.25"],
                 [some "Total", some "200.50", some "300.75"],
                 [some "zzz"]]] = some (mkRat 1203 4) ∧
    (extract_fibu_statement_data ""
        [[[some "Anzahl Buchungen", some "150.25"],
          [some "Total", some "200.50", some "300.75"],
          [some "zzz"]]] "x.pdf").saldo = some (mkRat 1203 4) :=
  ⟨by decide,
    claim_C7.1 ""
      [[[some "Anzahl Buchungen", some "150.25"],
        [some "Total", some "200.50", some "300.75"],
        [some "zzz"]]] "x.pdf" (mkRat 1203 4) (by decide)⟩

/-! ### C8: nonnegativity invariants -/

/-- The head of `getLast?` is a member. -/
lemma mem_of_getLast?Some {α : Type} {l : List α} {a : α} (h : l.getLast? = some a) :
    a ∈ l := by
  cases l with
  | nil => cases h
  | cons x xs =>
      have hne : x :: xs ≠ [] := by simp
      rw [List.getLast?_eq_getLast _ hne] at h
      injection h with h
      rw [← h]
      exact List.getLast_mem hne

/-- Each tax-row branch preserves "the primary amount, when set, is ≥ 0". -/
lemma processTaxRow_nonneg (dt : String) (col : Nat) (d : TaxData) (row : Row)
    (h : ∀ a : ℚ, d.restanzen_gemeinde = some a → 0 ≤ a) :
    ∀ a : ℚ, (processTaxRow dt col d row).restanzen_gemeinde = some a → 0 ≤ a := by
  intro a ha
  rcases row with _ | ⟨c0, rest⟩
  · exact h a ha
  · unfold processTaxRow at ha
    simp only at ha
    repeat' split at ha
    all_goals
      first
        | exact h a ha
        | exact (Option.some.inj ha) ▸ abs_nonneg _

/-- `parse_tax_statement_tables` only ever stores absolute amounts. -/
lemma parse_tax_statement_tables_nonneg (tables : List Table) (dt fn : String) :
    ∀ a : ℚ, (parse_tax_statement_tables tables dt fn).restanzen_gemeinde = some a →
      0 ≤ a := by
  unfold parse_tax_statement_tables
  refine foldl_preserves
    (fun p : Nat × TaxData => ∀ a : ℚ, p.2.restanzen_gemeinde = some a → 0 ≤ a)
    _ ?_ tables (4, _) ?_
  · intro p t hp
    exact foldl_preserves _ _ (fun b r hb => processTaxRow_nonneg dt _ b r hb) t p.2 hp
  · intro a ha
    cases ha

/-- The raw-text fallback stores an absolute amount too. -/
lemma taxTextFallback_nonneg (d : TaxData)
    (h : ∀ a : ℚ, d.restanzen_gemeinde = some a → 0 ≤ a) :
    ∀ (lines : List String) (a : ℚ),
      (taxTextFallback d lines).restanzen_gemeinde = some a → 0 ≤ a := by
  intro lines
  induction lines with
  | nil => exact h
  | cons line rest ih =>
      intro a ha
      unfold taxTextFallback at ha
      simp only at ha
      repeat' split at ha
      all_goals
        first
          | exact h a ha
          | exact ih a ha
          | exact (Option.some.inj ha) ▸ abs_nonneg _

/-- Every element collected by strategy 1's cell pass is above 100. -/
lemma rowSaldoScan_gt (row : Row) (acc : Option ℚ)
    (h : ∀ v : ℚ, acc = some v → 100 < v) :
    ∀ v : ℚ, rowSaldoScan row acc = some v → 100 < v := by
  unfold rowSaldoScan
  refine foldl_preserves (fun o : Option ℚ => ∀ v : ℚ, o = some v → 100 < v) _ ?_ row acc h
  intro b c hb v hv
  split at hv
  · split at hv
    · split at hv
      · rename_i hgt
        injection hv with hv
        rw [← hv]
        exact hgt
      · exact hb v hv
    · exact hb v hv
  · exact hb v hv

/-- Strategy 1's per-table backward scan keeps the above-100 invariant. -/
lemma scanRowsRev_gt (rows : List Row) :
    ∀ acc : Option ℚ, (∀ v : ℚ, acc = some v → 100 < v) →
      ∀ v : ℚ, scanRowsRev acc rows = some v → 100 < v := by
  induction rows with
  | nil => intro acc h v hv; exact h v hv
  | cons r rest ih =>
      intro acc h v hv
      unfold scanRowsRev at hv
      simp only at hv
      split at hv
      · exact ih acc h v hv
      · split at hv
        · split at hv
          · exact rowSaldoScan_gt r acc h v hv
          · exact ih _ (rowSaldoScan_gt r acc h) v hv
        · exact ih acc h v hv

/-- Strategy 1 only yields values above 100. -/
lemma fibuStrat1_gt (tables : List Table) :
    ∀ v : ℚ, fibuStrat1 tables = some v → 100 < v := by
  unfold fibuStrat1
  refine foldl_preserves (fun o : Option ℚ => ∀ v : ℚ, o = some v → 100 < v) _ ?_ tables
    none ?_
  · intro b t hb
    exact scanRowsRev_gt t.reverse b hb
  · intro v hv
    cases hv

/-- Strategy 2 only collects values above 100. -/
lemma fibuStrat2_gt (lines : List String) :
    ∀ v : ℚ, fibuStrat2 lines = some v → 100 < v := by
  intro v hv
  unfold fibuStrat2 at hv
  have hmem := mem_of_getLast?Some hv
  have hall : ∀ x ∈ (lines.foldl
      (fun (acc : List ℚ) line =>
        if containsS "saldo" (lowerS line) && containsS "buchungstext" (lowerS line) then acc
        else
          let values := findRuns line
          if 3 ≤ values.length then
            acc ++ values.filterMap
              (fun v =>
                match extract_monetary_value v with
                | some x => if x > 100 then some x else none
                | none => none)
          else acc)
      []), 100 < x := by
    refine foldl_preserves (fun l : List ℚ => ∀ x ∈ l, 100 < x) _ ?_ lines [] (by simp)
    intro b line hb x hx
    simp only at hx
    split at hx
    · exact hb x hx
    · split at hx
      · rcases List.mem_append.mp hx with hx | hx
        · exact hb x hx
        · obtain ⟨t, _, ht⟩ := List.mem_filterMap.mp hx
          split at ht
          · split at ht
            · rename_i hgt
              injection ht with ht
              rw [← ht]
              exact hgt
            · cases ht
          · cases ht
      · exact hb x hx
  exact hall v hmem

/-- Strategy 3 only yields values above 100. -/
lemma fibuStrat3_gt (lines : List String) :
    ∀ v : ℚ, fibuStrat3 lines = some v → 100 < v := by
  intro v hv
  unfold fibuStrat3 at hv
  obtain ⟨l₁, line, l₂, _, hline, _⟩ := List.findSome?_eq_some_iff.mp hv
  split at hline
  · obtain ⟨m₁, t, m₂, _, ht, _⟩ := List.findSome?_eq_some_iff.mp hline
    split at ht
    · split at ht
      · rename_i hgt
        injection ht with ht
        rw [← ht]
        exact hgt
      · cases ht
    · cases ht
  · cases hline

/-- The single-account extractor's saldo, when present, is above 100. -/
lemma extract_fibu_saldo_gt (text : String) (tables : List Table) (fn : String) :
    ∀ v : ℚ, (extract_fibu_statement_data text tables fn).saldo = some v → 100 < v := by
  intro v hv
  unfold extract_fibu_statement_data at hv
  simp only at hv
  split at hv
  · rename_i h1
    injection hv with hv
    exact hv ▸ fibuStrat1_gt tables _ h1
  · split at hv
    · rename_i h2
      injection hv with hv
      exact hv ▸ fibuStrat2_gt _ _ h2
    · exact fibuStrat3_gt _ v hv

/-- Entries of a Python-dict assignment are the new pair or an old entry. -/
lemma mem_setEntry {k : String} {v : Option ℚ} {l : List (String × Option ℚ)}
    {p : String × Option ℚ} (h : p ∈ setEntry k v l) : p = (k, v) ∨ p ∈ l := by
  induction l with
  | nil =>
      unfold setEntry at h
      rcases List.mem_singleton.mp h with rfl
      exact Or.inl rfl
  | cons q rest ih =>
      unfold setEntry at h
      split at h
      · rcases List.mem_cons.mp h with rfl | h2
        · exact Or.inl rfl
        · exact Or.inr (List.mem_cons_of_mem _ h2)
      · rcases List.mem_cons.mp h with rfl | h2
        · exact Or.inr (List.mem_cons_self _ _)
        · rcases ih h2 with h3 | h3
          · exact Or.inl h3
          · exact Or.inr (List.mem_cons_of_mem _ h3)

/-- One state-machine step preserves the nonnegativity invariant. -/
lemma dataInv_peel {l : List (String × Option ℚ)}
    (hl : ∀ p ∈ l, ∀ x : ℚ, p.2 = some x → 0 ≤ x) (k : String) (v : Option ℚ)
    (hv : ∀ x : ℚ, v = some x → 0 ≤ x) :
    ∀ p ∈ setEntry k v l, ∀ x : ℚ, p.2 = some x → 0 ≤ x := by
  intro p hp x hx
  rcases mem_setEntry hp with rfl | hp2
  · exact hv x hx
  · exact hl p hp2 x hx

lemma valInv_none : ∀ x : ℚ, (none : Option ℚ) = some x → 0 ≤ x :=
  fun _ hx => by cases hx

lemma valInv_abs (w : ℚ) : ∀ x : ℚ, (some |w| : Option ℚ) = some x → 0 ≤ x :=
  fun _ hx => by injection hx with hx; rw [← hx]; exact abs_nonneg w

lemma valInv_zero : ∀ x : ℚ, (some (0 : ℚ) : Option ℚ) = some x → 0 ≤ x :=
  fun _ hx => by injection hx with hx; rw [← hx]

lemma combStep_inv (line : String) (next? : Option String) (st : CombState)
    (h : combInv st) : combInv (combStep line next? st) := by
  unfold combStep
  simp only
  repeat' split
  all_goals intro p hp x hx
  all_goals try simp only at hp
  all_goals
    first
      | exact h p hp x hx
      | exact dataInv_peel h _ _ valInv_none p hp x hx
      | exact dataInv_peel h _ _ (valInv_abs _) p hp x hx
      | exact dataInv_peel h _ _ valInv_zero p hp x hx
      | exact dataInv_peel (dataInv_peel h _ _ valInv_none) _ _ valInv_none p hp x hx
      | exact dataInv_peel (dataInv_peel h _ _ valInv_none) _ _ (valInv_abs _) p hp x hx
      | exact dataInv_peel (dataInv_peel h _ _ valInv_none) _ _ valInv_zero p hp x hx
      | exact dataInv_peel (dataInv_peel (dataInv_peel h _ _ valInv_none) _ _ valInv_none)
          _ _ valInv_none p hp x hx
      | exact dataInv_peel (dataInv_peel (dataInv_peel h _ _ valInv_none) _ _ valInv_none)
          _ _ (valInv_abs _) p hp x hx
      | exact dataInv_peel (dataInv_peel (dataInv_peel h _ _ valInv_none) _ _ valInv_none)
          _ _ valInv_zero p hp x hx

/-- Running the combined-ledger machine preserves the invariant. -/
lemma combScan_inv (lines : List String) :
    ∀ st : CombState, combInv st → combInv (combScan lines st) := by
  induction lines with
  | nil => intro st h; exact h
  | cons l rest ih =>
      intro st h
      cases rest with
      | nil => exact combStep_inv l none st h
      | cons nx rest2 =>
          show combInv (combScan (nx :: rest2) (combStep l (some nx) st))
          exact ih _ (combStep_inv l (some nx) st h)

/-- The combined table fallback appends only nonnegative saldi. -/
lemma combTableScan_nonneg (fn : String) (tables : List Table) :
    ∀ f ∈ tables.foldl (combTableScan fn) [], ∀ v : ℚ, f.saldo = some v → 0 ≤ v := by
  refine foldl_preserves
    (fun acc : List FibuDoc => ∀ f ∈ acc, ∀ v : ℚ, f.saldo = some v → 0 ≤ v)
    _ ?_ tables [] (by simp)
  intro acc t hacc
  unfold combTableScan
  refine foldl_preserves
    (fun p : Option String × List FibuDoc => ∀ f ∈ p.2, ∀ v : ℚ, f.saldo = some v → 0 ≤ v)
    _ ?_ t (none, acc) hacc
  intro p row hp f hf v hv
  simp only at hf
  repeat' split at hf
  all_goals
    first
      | exact hp f hf v hv
      | (rcases List.mem_append.mp hf with hf2 | hf2
         <;> first
           | exact hp f hf2 v hv
           | (rcases List.mem_singleton.mp hf2 with rfl
              injection hv with hv
              rw [← hv]
              try exact abs_nonneg _))

/-- C8: every fact the extractors emit carries a nonnegative amount — the tax
extractor's primary amount (sign is out-of-band in `is_negative`), the
single-account ledger saldo, and every combined-ledger closing balance. -/
theorem claim_C8 :
    (∀ (text : String) (tables : List Table) (fn dt : String) (a : ℚ),
       (extract_tax_statement_data_v2 text tables fn dt).restanzen_gemeinde = some a →
       0 ≤ a) ∧
    (∀ (text : String) (tables : List Table) (fn : String) (v : ℚ),
       (extract_fibu_statement_data text tables fn).saldo = some v → 0 ≤ v) ∧
    (∀ (text : String) (tables : List Table) (fn : String),
       ∀ f ∈ extract_combined_fibu_data text tables fn,
         ∀ v : ℚ, f.saldo = some v → 0 ≤ v) := by
  refine ⟨?_, ?_, ?_⟩
  · intro text tables fn dt a ha
    unfold extract_tax_statement_data_v2 at ha
    simp only at ha
    have hd1 : ∀ b : ℚ,
        ({ parse_tax_statement_tables tables dt fn with
           year := extract_year_from_text text fn } : TaxData).restanzen_gemeinde =
          some b → 0 ≤ b :=
      fun b hb => parse_tax_statement_tables_nonneg tables dt fn b hb
    split at ha <;> split at ha <;>
      first
        | exact taxTextFallback_nonneg _ hd1 _ a ha
        | exact hd1 a ha
  · intro text tables fn v hv
    have := extract_fibu_saldo_gt text tables fn v hv
    linarith
  · intro text tables fn f hf v hv
    unfold extract_combined_fibu_data at hf
    simp only at hf
    split at hf
    · exact combTableScan_nonneg fn tables f hf v hv
    · obtain ⟨p, hp, hpf⟩ := List.mem_filterMap.mp hf
      have hinv := combScan_inv (splitLines text) { current := none, accData := [] }
        (by intro q hq; cases hq)
      cases hx : p.2 with
      | none => rw [hx] at hpf; cases hpf
      | some x =>
          rw [hx] at hpf
          injection hpf with hpf
          rw [← hpf] at hv
          injection hv with hv
          rw [← hv]
          exact hinv p hp x hx

/-- Witness for C8 at concrete extractions: a negative row-51 value stored as
250, a table saldo of 300.75, and a combined-ledger balance of 100. -/
theorem claim_C8_witness :
    (extract_tax_statement_data_v2 ""
        [[[some "51", some "total restanzen", none, none, some "-250.00"]]]
        "sr.pdf" "SR").restanzen_gemeinde = some 250 ∧ (0 : ℚ) ≤ 250 ∧
    (extract_fibu_statement_data ""
        [[[some "Total", some "300.75"]]] "x.pdf").saldo = some (mkRat 1203 4) ∧
    (0 : ℚ) ≤ mkRat 1203 4 ∧
    (extract_combined_fibu_data
        "Konto 1012.00 Forderungen\nEndsaldo 100.00" [] "f.pdf").map FibuDoc.saldo =
      [some 100] ∧ (0 : ℚ) ≤ 100 := by
  refine ⟨by decide, ?_, by decide, ?_, by decide, ?_⟩
  · exact claim_C8.1 ""
      [[[some "51", some "total restanzen", none, none, some "-250.00"]]]
      "sr.pdf" "SR" 250 (by decide)
  · exact claim_C8.2.1 "" [[[some "Total", some "300.75"]]] "x.pdf" (mkRat 1203 4)
      (by decide)
  · exact claim_C8.2.2 "Konto 1012.00 Forderungen\nEndsaldo 100.00" [] "f.pdf"
      { filename := "f.pdf", ty := "fibu", account := some "1012.00", saldo := some 100 }
      (by decide) 100 rfl

/-! ### C2: combined-ledger section scenario -/

/-- C2 counterexample: a receivables header, an `Endsaldo 100.00` line, a
payables header, and an `Endsaldo` line with no numeric tokens yield exactly
ONE fact (account 1012.00 ↦ 100), not the claimed two — a token-less
`endsaldo` line resets the current account without assigning a balance, so
account 2002.00 contributes nothing. -/
theorem claim_C2_counterexample :
    extract_combined_fibu_data
        "Konto 1012.00 Forderungen\nEndsaldo 100.00\nKonto 2002.00 Verpflichtungen\nEndsaldo"
        [] "f.pdf" =
      [{ filename := "f.pdf", ty := "fibu", account := some "1012.00", saldo := some 100 }] ∧
    (extract_combined_fibu_data
        "Konto 1012.00 Forderungen\nEndsaldo 100.00\nKonto 2002.00 Verpflichtungen\nEndsaldo"
        [] "f.pdf").length ≠ 2 := by
  constructor
  · decide
  · decide

/-- C2 amended: for a four-line document of the claimed shape — receivables
header (`1012.00` with `forderungen`), an `endsaldo` line whose last numeric
token normalizes to 100, payables header (`2002.00` with `verpflichtungen`),
and an `endsaldo` line with no numeric tokens — the extractor emits exactly
one LedgerFact: closing balance 100 for account 1012.00.  The second
`endsaldo` line only resets the current account; the payables account
receives no fact. -/
theorem claim_C2 (text h1 e1 h2 e2 t : String) (ts : List String)
    (tables : List Table) (fn : String)
    (hsplit : splitLines text = [h1, e1, h2, e2])
    (hh1a : containsS "1012.00" h1 = true)
    (hh1b : containsS "forderungen" (lowerS h1) = true)
    (hh1c : containsS "2002.00" h1 = false)
    (hh1d : containsS "endsaldo" (lowerS h1) = false)
    (he1a : containsS "1012.00" e1 = false)
    (he1b : containsS "2002.00" e1 = false)
    (he1c : containsS "endsaldo" (lowerS e1) = true)
    (he1d : findNumTokens e1 = ts ++ [t])
    (he1e : extract_monetary_value t = some 100)
    (hh2a : containsS "2002.00" h2 = true)
    (hh2b : containsS "verpflichtungen" (lowerS h2) = true)
    (hh2c : containsS "1012.00" h2 = false)
    (hh2d : containsS "endsaldo" (lowerS h2) = false)
    (he2a : containsS "1012.00" e2 = false)
    (he2b : containsS "2002.00" e2 = false)
    (he2c : containsS "endsaldo" (lowerS e2) = true)
    (he2d : findNumTokens e2 = []) :
    extract_combined_fibu_data text tables fn =
      [{ filename := fn, ty := "fibu", account := some "1012.00", saldo := some 100 }] := by
  unfold extract_combined_fibu_data
  rw [hsplit]
  have step1 : combStep h1 (some e1) { current := none, accData := [] } =
      { current := some "1012.00", accData := [("1012.00", none)] } := by
    unfold combStep
    simp [hh1a, hh1b, hh1c, hh1d, setEntry]
  have step2 :
      combStep e1 (some h2)
        { current := some "1012.00", accData := [("1012.00", none)] } =
      { current := none, accData := [("1012.00", some 100)] } := by
    unfold combStep
    simp only [he1a, he1b, he1c, he1d]
    simp [he1e, setEntry, List.findSome?]
  have step3 :
      combStep h2 (some e2)
        { current := none, accData := [("1012.00", some 100)] } =
      { current := some "2002.00", accData := [("1012.00", some 100), ("2002.00", none)] } := by
    unfold combStep
    simp [hh2a, hh2b, hh2c, hh2d, setEntry]
  have step4 :
      combStep e2 none
        { current := some "2002.00", accData := [("1012.00", some 100), ("2002.00", none)] } =
      { current := none, accData := [("1012.00", some 100), ("2002.00", none)] } := by
    unfold combStep
    simp [he2a, he2b, he2c, he2d]
  show (let st := combScan [h1, e1, h2, e2] { current := none, accData := [] }
        let results := st.accData.filterMap
          (fun p => p.2.map (fun x =>
            ({ filename := fn, ty := "fibu", account := some p.1, saldo := some x } : FibuDoc)))
        if results.isEmpty then tables.foldl (combTableScan fn) [] else results) = _
  have hscan : combScan [h1, e1, h2, e2] { current := none, accData := [] } =
      { current := none, accData := [("1012.00", some 100), ("2002.00", none)] } := by
    show combScan [e1, h2, e2] (combStep h1 (some e1) { current := none, accData := [] }) = _
    rw [step1]
    show combScan [h2, e2]
      (combStep e1 (some h2)
        { current := some "1012.00", accData := [("1012.00", none)] }) = _
    rw [step2]
    show combScan [e2]
      (combStep h2 (some e2)
        { current := none, accData := [("1012.00", some 100)] }) = _
    rw [step3]
    show combStep e2 none
      { current := some "2002.00", accData := [("1012.00", some 100), ("2002.00", none)] } = _
    rw [step4]
  rw [hscan]
  simp [List.filterMap]

/-- Witness for C2's amended statement at the counterexample document. -/
theorem claim_C2_witness :
    extract_combined_fibu_data
        "Konto 1012.00 Forderungen\nEndsaldo 100.00\nKonto 2002.00 Verpflichtungen\nEndsaldo"
        [[[some "x"]]] "g.pdf" =
      [{ filename := "g.pdf", ty := "fibu", account := some "1012.00", saldo := some 100 }] :=
  claim_C2
    "Konto 1012.00 Forderungen\nEndsaldo 100.00\nKonto 2002.00 Verpflichtungen\nEndsaldo"
    "Konto 1012.00 Forderungen" "Endsaldo 100.00" "Konto 2002.00 Verpflichtungen" "Endsaldo"
    "100.00" [] [[[some "x"]]] "g.pdf"
    (by decide) (by decide) (by decide) (by decide) (by decide) (by decide) (by decide)
    (by decide) (by decide) (by decide) (by decide) (by decide) (by decide) (by decide)
    (by decide) (by decide) (by decide) (by decide)

/-! ### C3: reported totals in the audit output -/

/-- C3 counterexample: one ledger fact for account 1012.00 with saldo `0.0`
makes the R805 item list nonempty, yet the reported `fibu_total` is `None`
(Python `round(total, 2) if total else None` treats `0.0` as falsy) — the
claimed "absent iff the item list is empty" equivalence fails. -/
theorem claim_C3_counterexample :
    ((perform_audit_with_breakdown []
        [{ filename := "f", ty := "fibu", account := some "1012.00", saldo := some 0 }]
        [] []).map (fun r => r.summary.fibu_total)) = [none, none] ∧
    ((perform_audit_with_breakdown []
        [{ filename := "f", ty := "fibu", account := some "1012.00", saldo := some 0 }]
        [] []).map (fun r => r.details.fibu_items.length)) = [1, 0] := by
  constructor
  · decide
  · decide

/-- The reporting guard: `round(total, 2) if total else None` over an
emptiness-guarded sum. -/
lemma reportedTotal_some (s : ℚ) :
    reportedTotal (some s) = if s ≠ 0 then some (round2 s) else none := rfl

lemma reportedTotal_ite_spec {α : Type} (l : List α) (s : ℚ) :
    (reportedTotal (if l.isEmpty then none else some s) = none ↔ (l = [] ∨ s = 0)) ∧
    (∀ v : ℚ, reportedTotal (if l.isEmpty then none else some s) = some v →
       v = round2 s) := by
  cases l with
  | nil => simp [reportedTotal]
  | cons x xs =>
      simp only [List.isEmpty_cons, Bool.false_eq_true, reduceIte, reportedTotal_some]
      constructor
      · constructor
        · intro hnone
          by_cases hz : s = 0
          · exact Or.inr hz
          · rw [if_pos hz] at hnone
            cases hnone
        · rintro (h | h)
          · cases h
          · rw [if_neg (fun hh => hh h)]
      · intro v hv
        by_cases hz : s = 0
        · rw [if_neg (fun hh => hh hz)] at hv
          cases hv
        · rw [if_pos hz] at hv
          injection hv with hv
          exact hv.symm

/-- C3 amended: in each audit result, a reported total is absent iff the
corresponding item list is empty OR its amounts sum to exactly 0 (Python
falsiness of `0.0`); when present it equals the sum rounded to 2 decimals. -/
theorem claim_C3 (tax_docs : List TaxData) (fibu_docs : List FibuDoc)
    (er_docs : List ErDoc) (bilanz_docs : List BilanzDoc) :
    ∀ r ∈ perform_audit_with_breakdown tax_docs fibu_docs er_docs bilanz_docs,
      (r.summary.tax_total = none ↔
        (r.details.tax_items = [] ∨ sumTaxAmounts r.details.tax_items = 0)) ∧
      (∀ v : ℚ, r.summary.tax_total = some v →
        v = round2 (sumTaxAmounts r.details.tax_items)) ∧
      (r.summary.fibu_total = none ↔
        (r.details.fibu_items = [] ∨ sumFibuAmounts r.details.fibu_items = 0)) ∧
      (∀ v : ℚ, r.summary.fibu_total = some v →
        v = round2 (sumFibuAmounts r.details.fibu_items)) := by
  intro r hr
  unfold perform_audit_with_breakdown at hr
  simp only [List.mem_cons, List.not_mem_nil, or_false] at hr
  rcases hr with rfl | rfl
  · exact ⟨(reportedTotal_ite_spec _ _).1, (reportedTotal_ite_spec _ _).2,
      (reportedTotal_ite_spec _ _).1, (reportedTotal_ite_spec _ _).2⟩
  · exact ⟨(reportedTotal_ite_spec _ _).1, (reportedTotal_ite_spec _ _).2,
      (reportedTotal_ite_spec _ _).1, (reportedTotal_ite_spec _ _).2⟩

/-- Witness for C3 at the zero-saldo ledger fact: the item list is nonempty,
sums to 0, and the reported total is absent. -/
theorem claim_C3_witness :
    (buildRuleResult "R805"
        "Steuerforderungen (Konto 1012.00) vs. Steuerabrechnungen (positive Restanzen)"
        []
        [{ account := "1012.00", amount := 0, source := "f",
           label := some "Kontoauszug Saldo" }]).summary.fibu_total = none ∧
    (buildRuleResult "R805"
        "Steuerforderungen (Konto 1012.00) vs. Steuerabrechnungen (positive Restanzen)"
        []
        [{ account := "1012.00", amount := 0, source := "f",
           label := some "Kontoauszug Saldo" }]).details.fibu_items ≠ [] :=
  ⟨((claim_C3 []
      [{ filename := "f", ty := "fibu", account := some "1012.00", saldo := some 0 }]
      [] [] _ (by decide)).2.2.1).mpr (Or.inr (by decide)),
    by decide⟩

end Revipro
